import Mathlib

/-!
Shallow embedding of the jogoborg scheduling and backup-execution core
(`scripts/backup_executor.py`, `scripts/scheduler.py`,
`scripts/web_server.py`, `scripts/init_gpg.py`) together with proofs
settling the frozen claims about its specification.

Job configurations reach `BackupExecutor.execute_job` as Python dicts, so we
model the dynamically-typed Python values the validator inspects.
-/

/-- Model of the Python values stored in a job-configuration dict:
`None`, `bool`, `int`, `str`, `list`, and `dict` (the latter used by the
`db_config` / `s3_config` sub-configurations). -/
inductive PyVal where
  | pyNone : PyVal
  | pyBool : Bool → PyVal
  | pyInt : Int → PyVal
  | pyStr : String → PyVal
  | pyList : List PyVal → PyVal
  | pyDict : List (String × PyVal) → PyVal
deriving Repr

/-- Python truthiness: `None`, `False`, `0`, `""`, `[]` and `{}` are falsy,
everything else is truthy.  Mirrors the implicit `if job.get(...)` checks in
`execute_job` and `_validate_job_config`. -/
def truthy : PyVal → Bool
  | PyVal.pyNone => false
  | PyVal.pyBool b => b
  | PyVal.pyInt n => n != 0
  | PyVal.pyStr s => !s.isEmpty
  | PyVal.pyList xs => !xs.isEmpty
  | PyVal.pyDict es => !es.isEmpty

/-- The Python types the validator's `required_fields` table mentions. -/
inductive PyType where
  | int : PyType
  | str : PyType
  | list : PyType
deriving Repr, DecidableEq

/-- `isinstance(v, t)` for the three types used by `_validate_job_config`.
A Python `bool` is a subclass of `int`, so `isinstance(True, int)` holds. -/
def isinstanceOf : PyVal → PyType → Bool
  | PyVal.pyInt _, PyType.int => true
  | PyVal.pyBool _, PyType.int => true
  | PyVal.pyStr _, PyType.str => true
  | PyVal.pyList _, PyType.list => true
  | _, _ => false

/-- A job configuration as passed to `execute_job`: a Python dict, i.e. a
finite association list from string keys to Python values. -/
abbrev JobDict : Type := List (String × PyVal)

/-- `job[k]` / `k in job`: first binding of key `k`, if any. -/
def dictGet (job : JobDict) (k : String) : Option PyVal :=
  (List.find? (fun kv => kv.1 == k) job).map (fun kv => kv.2)

/-- `job.get(k)`: like `dictGet` but returning Python `None` when absent. -/
def pyGet (job : JobDict) (k : String) : PyVal :=
  (dictGet job k).getD PyVal.pyNone

/-- Iterating a Python value with `for`:  a list yields its elements, a
string yields its characters (as one-character strings), a dict yields its
keys; iterating an `int`/`bool`/`None` raises `TypeError` (`none` here). -/
def pyIterElems : PyVal → Option (List PyVal)
  | PyVal.pyList xs => some xs
  | PyVal.pyStr s => some (s.toList.map (fun c => PyVal.pyStr (String.mk [c])))
  | PyVal.pyDict es => some (es.map (fun kv => PyVal.pyStr kv.1))
  | _ => none

/-- The `required_fields` table of `_validate_job_config`, in source order. -/
def requiredFields : List (String × PyType) :=
  [("id", PyType.int), ("name", PyType.str), ("compression", PyType.str),
   ("source_directories", PyType.list), ("keep_daily", PyType.int),
   ("keep_monthly", PyType.int), ("keep_yearly", PyType.int)]

/-- Errors produced by the required-field presence/type loop of
`_validate_job_config`. -/
def fieldErrors (job : JobDict) : List String :=
  requiredFields.filterMap (fun ft =>
    match dictGet job ft.1 with
    | none => some ("Missing required field: " ++ ft.1)
    | some v =>
      if isinstanceOf v ft.2 then none
      else some ("Field " ++ ft.1 ++ " has wrong type"))

/-- One source-directory entry is invalid when it is not a string or is
blank after `strip()` — i.e. the string consists solely of whitespace. -/
def sourceDirInvalid : PyVal → Bool
  | PyVal.pyStr s => s.data.all (fun c => c.isWhitespace)
  | _ => true

/-- The source-directories check of `_validate_job_config`.  Returns
`Except.error` for a Python `TypeError` raised by iterating a truthy
non-iterable value, otherwise the list of accumulated validation errors. -/
def sourceDirErrors (job : JobDict) : Except String (List String) :=
  match dictGet job "source_directories" with
  | some v =>
    if truthy v then
      match pyIterElems v with
      | none => Except.error "TypeError: object is not iterable"
      | some elems =>
        Except.ok (elems.filterMap (fun e =>
          if sourceDirInvalid e then some "Invalid source directory" else none))
    else Except.ok ["Job must have at least one source directory"]
  | none => Except.ok ["Job must have at least one source directory"]

/-- The compression modes accepted by `_validate_job_config`. -/
def validCompressions : List String := ["none", "lz4", "zstd", "zlib", "lzma"]

/-- The compression check: an error unless `job['compression']` is one of
the valid mode strings (a non-string value never equals one). -/
def compressionErrors (job : JobDict) : List String :=
  match dictGet job "compression" with
  | some (PyVal.pyStr s) =>
    if validCompressions.contains s then [] else ["Invalid compression type: " ++ s]
  | some _ => ["Invalid compression type"]
  | none => []

/-- Python `v < 0` for a retention value: defined for `int` and `bool`
(`False`/`True` count as `0`/`1`), a `TypeError` otherwise. -/
def pyLtZero : PyVal → Except String Bool
  | PyVal.pyInt n => Except.ok (decide (n < 0))
  | PyVal.pyBool _ => Except.ok false
  | _ => Except.error "TypeError: unsupported comparison"

/-- The retention-count loop of `_validate_job_config`: for each present
`keep_*` field, an error when its value is negative. -/
def retentionErrors (job : JobDict) : Except String (List String) :=
  (["keep_daily", "keep_monthly", "keep_yearly"]).foldlM (fun acc f =>
    match dictGet job f with
    | none => Except.ok acc
    | some v => do
      let neg ← pyLtZero v
      pure (if neg then acc ++ ["Field " ++ f ++ " must be non-negative"] else acc)) []

/-- Whether a passphrase is resolvable: `job.get('repository_passphrase') or
self._get_env('BORG_PASSPHRASE')` must be truthy. -/
def passphraseResolvable (job : JobDict) (envPassphrase : Option String) : Bool :=
  truthy (pyGet job "repository_passphrase") ||
    (match envPassphrase with
     | some s => !s.isEmpty
     | none => false)

/-- `_validate_job_config`: collects the errors of every check and raises
(`Except.error`) when any were found; a `TypeError` raised mid-validation
propagates directly. -/
def validateJobConfig (job : JobDict) (envPassphrase : Option String) :
    Except String Unit := do
  let errs1 := fieldErrors job
  let errs2 ← sourceDirErrors job
  let errs3 := compressionErrors job
  let errs4 ← retentionErrors job
  let errs5 :=
    if passphraseResolvable job envPassphrase then ([] : List String)
    else ["No repository passphrase provided"]
  let errors := errs1 ++ errs2 ++ errs3 ++ errs4 ++ errs5
  if errors.isEmpty then pure ()
  else Except.error ("Job validation failed:\n  - " ++ String.intercalate "\n  - " errors)

/-! ## Run records (`job_logs` table) and the pipeline stages -/

/-- Terminal status column of a `job_logs` row. -/
inductive RunStatus where
  | running : RunStatus
  | completed : RunStatus
  | failed : RunStatus
deriving Repr, DecidableEq

/-- One row of the `job_logs` table (a RunRecord): identity is the list
position (SQLite rowid order); metric columns are nullable. -/
structure RunRecord where
  jobId : PyVal
  startedAt : Nat
  finishedAt : Option Nat
  status : RunStatus
  createDuration : Option Nat
  createMaxMemory : Option Nat
  pruneDuration : Option Nat
  pruneMaxMemory : Option Nat
  compactDuration : Option Nat
  compactMaxMemory : Option Nat
  dbDumpDuration : Option Nat
  dbDumpMaxMemory : Option Nat
  dbArchiveDuration : Option Nat
  dbArchiveMaxMemory : Option Nat
  dbPruneDuration : Option Nat
  dbPruneMaxMemory : Option Nat
  dbCompactDuration : Option Nat
  dbCompactMaxMemory : Option Nat
  errorMessage : Option String
deriving Repr

/-- `_create_log_entry`: the freshly inserted row — status `running`, every
other nullable column NULL. -/
def mkRunningRecord (jobId : PyVal) (startedAt : Nat) : RunRecord where
  jobId := jobId
  startedAt := startedAt
  finishedAt := none
  status := RunStatus.running
  createDuration := none
  createMaxMemory := none
  pruneDuration := none
  pruneMaxMemory := none
  compactDuration := none
  compactMaxMemory := none
  dbDumpDuration := none
  dbDumpMaxMemory := none
  dbArchiveDuration := none
  dbArchiveMaxMemory := none
  dbPruneDuration := none
  dbPruneMaxMemory := none
  dbCompactDuration := none
  dbCompactMaxMemory := none
  errorMessage := none

/-- `_update_log_entry`: the SQL UPDATE sets every listed column, so
parameters left at their Python default `None` overwrite with NULL. -/
def updateLogEntry (r : RunRecord) (finishedAt : Nat) (status : RunStatus)
    (cd cm pd pm xd xm dd dm ad am qd qm td tm : Option Nat)
    (errorMessage : Option String) : RunRecord :=
  { r with
    finishedAt := some finishedAt
    status := status
    createDuration := cd
    createMaxMemory := cm
    pruneDuration := pd
    pruneMaxMemory := pm
    compactDuration := xd
    compactMaxMemory := xm
    dbDumpDuration := dd
    dbDumpMaxMemory := dm
    dbArchiveDuration := ad
    dbArchiveMaxMemory := am
    dbPruneDuration := qd
    dbPruneMaxMemory := qm
    dbCompactDuration := td
    dbCompactMaxMemory := tm
    errorMessage := errorMessage }

/-- Outcome of one `/usr/bin/time -v`-wrapped borg subprocess: its exit
code and the duration/peak-memory parsed from the time output
(`_parse_time_output` followed by `int(...)`). -/
structure TimedOutcome where
  exitCode : Int
  duration : Nat
  maxMemoryMB : Nat
deriving Repr, DecidableEq

/-- Outcome of a shell hook run by `_execute_command`: it either exited
(with some code) or hit the 300-second timeout. -/
inductive CmdOutcome where
  | exited : Int → CmdOutcome
  | timedOut : CmdOutcome
deriving Repr, DecidableEq

/-- The external-world outcomes one run of `execute_job` observes: results
of each subprocess it may spawn, the dump-file list produced by the
database dumper, and the wall-clock instant the run finishes. -/
structure RunEnv where
  preOutcome : CmdOutcome
  repoExists : Bool
  initExit : Int
  createOutcome : TimedOutcome
  pruneOutcome : TimedOutcome
  compactOutcome : TimedOutcome
  dumpResult : Except String (List String)
  dumpDuration : Nat
  dbArchiveOutcome : TimedOutcome
  dbPruneOutcome : TimedOutcome
  dbCompactOutcome : TimedOutcome
  s3Ok : Bool
  postOutcome : CmdOutcome
  finishedAt : Nat
deriving Repr

/-- `_execute_command`: a non-zero exit code is only logged as a warning
(the hook is best-effort there), but `subprocess.TimeoutExpired` is caught
and re-raised as `Exception("Command execution timed out")`. -/
def executeCommand : CmdOutcome → Except String Unit
  | CmdOutcome.exited _ => Except.ok ()
  | CmdOutcome.timedOut => Except.error "Command execution timed out"

/-- `_init_repository`: raises when no passphrase was provided, and raises
on a non-zero `borg init` exit. -/
def initRepository (passphraseTruthy : Bool) (initExit : Int) : Except String Unit :=
  if !passphraseTruthy then
    Except.error "Could not initialize repository: Passphrase is required but not provided"
  else if initExit == 0 then Except.ok ()
  else Except.error "Failed to initialize repository"

/-- `_execute_borg_create`: raises on non-zero exit, otherwise returns the
parsed `(duration, max_memory)`. -/
def executeBorgCreate (o : TimedOutcome) : Except String (Nat × Nat) :=
  if o.exitCode == 0 then Except.ok (o.duration, o.maxMemoryMB)
  else Except.error "Borg create failed"

/-- `_execute_borg_prune`: raises on non-zero exit, otherwise returns the
parsed `(duration, max_memory)`. -/
def executeBorgPrune (o : TimedOutcome) : Except String (Nat × Nat) :=
  if o.exitCode == 0 then Except.ok (o.duration, o.maxMemoryMB)
  else Except.error "Borg prune failed"

/-- `_execute_borg_compact`: raises on non-zero exit, otherwise returns the
parsed `(duration, max_memory)`. -/
def executeBorgCompact (o : TimedOutcome) : Except String (Nat × Nat) :=
  if o.exitCode == 0 then Except.ok (o.duration, o.maxMemoryMB)
  else Except.error "Borg compact failed"

/-- `_prune_db_archives_timed`: a non-zero exit is only logged as a warning
and the function returns the minimal values `(0, 1)` — it never raises. -/
def pruneDbArchivesTimed (o : TimedOutcome) : Nat × Nat :=
  if o.exitCode == 0 then (o.duration, o.maxMemoryMB) else (0, 1)

/-- `_execute_db_compact_timed`: a non-zero exit is only logged as a warning
and the function returns the minimal values `(0, 1)` — it never raises. -/
def executeDbCompactTimed (o : TimedOutcome) : Nat × Nat :=
  if o.exitCode == 0 then (o.duration, o.maxMemoryMB) else (0, 1)

/-- The eight nullable db-stage metrics returned by `_execute_db_backup`. -/
structure DbMetrics where
  dumpDuration : Option Nat
  dumpMaxMemory : Option Nat
  archiveDuration : Option Nat
  archiveMaxMemory : Option Nat
  pruneDuration : Option Nat
  pruneMaxMemory : Option Nat
  compactDuration : Option Nat
  compactMaxMemory : Option Nat
deriving Repr, DecidableEq

/-- The all-NULL db metrics (`return None, None, ..., None`). -/
def dbMetricsNone : DbMetrics where
  dumpDuration := none
  dumpMaxMemory := none
  archiveDuration := none
  archiveMaxMemory := none
  pruneDuration := none
  pruneMaxMemory := none
  compactDuration := none
  compactMaxMemory := none

/-- `_execute_db_backup`: dump, then (inside `try`) create the `_db`
archive — raising on failure — then the never-raising db prune and db
compact; the `finally` block attempts `os.remove` on every dump file.  The
second component is the list of files whose removal was attempted: it is
the whole dump-file list on both the success and the raise path of the
`try`, and empty only when the dump produced no files (early return before
the `try`). -/
def executeDbBackup (env : RunEnv) : Except String DbMetrics × List String :=
  match env.dumpResult with
  | Except.error e => (Except.error e, [])
  | Except.ok dumpFiles =>
    if dumpFiles.isEmpty then (Except.ok dbMetricsNone, [])
    else
      let result : Except String DbMetrics :=
        if env.dbArchiveOutcome.exitCode == 0 then
          let pr := pruneDbArchivesTimed env.dbPruneOutcome
          let co := executeDbCompactTimed env.dbCompactOutcome
          Except.ok
            { dumpDuration := some env.dumpDuration
              dumpMaxMemory := some 1
              archiveDuration := some env.dbArchiveOutcome.duration
              archiveMaxMemory := some env.dbArchiveOutcome.maxMemoryMB
              pruneDuration := some pr.1
              pruneMaxMemory := some pr.2
              compactDuration := some co.1
              compactMaxMemory := some co.2 }
        else Except.error "Database archive creation failed"
      (result, dumpFiles)

/-- The core-stage metrics a fully successful run collects. -/
structure Metrics where
  createDuration : Nat
  createMaxMemory : Nat
  pruneDuration : Nat
  pruneMaxMemory : Nat
  compactDuration : Nat
  compactMaxMemory : Nat
  db : DbMetrics
deriving Repr, DecidableEq

/-- The `try` body of `execute_job` between run-record creation and the
success update: pre-command hook, repository initialization when absent
(reading `job['repository_passphrase']`, a KeyError when missing), the
create/prune/compact stages, the optional database backup, the optional S3
sync (`_execute_s3_sync` re-raises on failure), and the post-command hook.
`borg create` also reads `job['repository_passphrase']` for its subprocess
environment, hence the KeyError check on that path. -/
def runJobBody (job : JobDict) (env : RunEnv) : Except String Metrics :=
  match (if truthy (pyGet job "pre_command")
         then executeCommand env.preOutcome else Except.ok ()) with
  | Except.error e => Except.error e
  | Except.ok _ =>
  match (if !env.repoExists then
           match dictGet job "repository_passphrase" with
           | none => Except.error "KeyError: repository_passphrase"
           | some pv => initRepository (truthy pv) env.initExit
         else Except.ok ()) with
  | Except.error e => Except.error e
  | Except.ok _ =>
  match dictGet job "repository_passphrase" with
  | none => Except.error "KeyError: repository_passphrase"
  | some _ =>
  match executeBorgCreate env.createOutcome with
  | Except.error e => Except.error e
  | Except.ok cr =>
  match executeBorgPrune env.pruneOutcome with
  | Except.error e => Except.error e
  | Except.ok pr =>
  match executeBorgCompact env.compactOutcome with
  | Except.error e => Except.error e
  | Except.ok co =>
  match (if truthy (pyGet job "db_config")
         then (executeDbBackup env).1 else Except.ok dbMetricsNone) with
  | Except.error e => Except.error e
  | Except.ok dbm =>
  match (if truthy (pyGet job "s3_config")
         then (if env.s3Ok then Except.ok () else Except.error "S3 sync failed")
         else Except.ok ()) with
  | Except.error e => Except.error e
  | Except.ok _ =>
  match (if truthy (pyGet job "post_command")
         then executeCommand env.postOutcome else Except.ok ()) with
  | Except.error e => Except.error e
  | Except.ok _ =>
    Except.ok
      { createDuration := cr.1
        createMaxMemory := cr.2
        pruneDuration := pr.1
        pruneMaxMemory := pr.2
        compactDuration := co.1
        compactMaxMemory := co.2
        db := dbm }

/-- The success update of `execute_job`: `_update_log_entry(...,
'completed', <all collected metrics>)`. -/
def completedRecord (idv : PyVal) (startedAt finishedAt : Nat) (m : Metrics) : RunRecord :=
  updateLogEntry (mkRunningRecord idv startedAt) finishedAt RunStatus.completed
    (some m.createDuration) (some m.createMaxMemory)
    (some m.pruneDuration) (some m.pruneMaxMemory)
    (some m.compactDuration) (some m.compactMaxMemory)
    m.db.dumpDuration m.db.dumpMaxMemory
    m.db.archiveDuration m.db.archiveMaxMemory
    m.db.pruneDuration m.db.pruneMaxMemory
    m.db.compactDuration m.db.compactMaxMemory
    none

/-- The failure update of `execute_job`: `_update_log_entry(log_entry_id,
finished_at, 'failed', error_message=str(e))` — every metric parameter is
left at its default `None`, so all metric columns become NULL. -/
def failedRecord (idv : PyVal) (startedAt finishedAt : Nat) (msg : String) : RunRecord :=
  updateLogEntry (mkRunningRecord idv startedAt) finishedAt RunStatus.failed
    none none none none none none none none none none none none none none
    (some msg)

/-- `execute_job`: reads `job['id']` and `job['name']` (KeyError when
missing), validates the configuration (raising before any run record is
created), inserts the `running` row, runs the pipeline body, and updates
that row to `completed` or — after any fatal stage error — to `failed`
with the captured message before re-raising. -/
def executeJob (job : JobDict) (envPassphrase : Option String) (env : RunEnv)
    (startedAt : Nat) (store : List RunRecord) :
    List RunRecord × Except String Unit :=
  match dictGet job "id", dictGet job "name" with
  | some idv, some _ =>
    match validateJobConfig job envPassphrase with
    | Except.error e => (store, Except.error e)
    | Except.ok _ =>
      let idx := store.length
      let store1 := store ++ [mkRunningRecord idv startedAt]
      match runJobBody job env with
      | Except.ok m =>
        (store1.set idx (completedRecord idv startedAt env.finishedAt m), Except.ok ())
      | Except.error msg =>
        (store1.set idx (failedRecord idv startedAt env.finishedAt msg), Except.error msg)
  | _, _ => (store, Except.error "KeyError: id or name")

/-! ## Scheduler due-check (`scheduler.py`, `should_run_job`) -/

/-- One row of `job_logs` as the due-check's SQL query sees it. -/
structure LogRow where
  jobId : Int
  startedAt : Nat
deriving Repr, DecidableEq

/-- The due-check's COUNT query: rows of this job with `started_at` in the
half-open interval `[prev, T)`. -/
def countRunsBetween (logs : List LogRow) (jobId : Int) (prev T : Nat) : Nat :=
  (logs.filter (fun r =>
    r.jobId == jobId && decide (prev ≤ r.startedAt) && decide (r.startedAt < T))).length

/-- `should_run_job`: returns `False` when the job is in the in-memory
`running_jobs` set; then `False` when more than 61 seconds have passed
since `prev` (the last cron fire time of the schedule on or before the
current time, computed via croniter); otherwise `True` exactly when no run
of this job started in `[prev, T)`. -/
def shouldRunJob (runningJobs : List Int) (jobId : Int) (prev T : Nat)
    (logs : List LogRow) : Bool :=
  if runningJobs.contains jobId then false
  else if T - prev > 61 then false
  else countRunsBetween logs jobId prev T == 0

/-! ## Manual trigger (`web_server.py`, `_handle_trigger_job`) -/

/-- What the trigger endpoint answers. -/
inductive TriggerResult where
  | notFound : TriggerResult
  | decryptFailed : TriggerResult
  | started : TriggerResult
deriving Repr, DecidableEq

/-- One row of `backup_jobs` as the trigger handler needs it: its id and
whether an encrypted repository passphrase is stored. -/
structure BackupJobRow where
  id : Int
  hasEncryptedPassphrase : Bool
deriving Repr, DecidableEq

/-- `_handle_trigger_job`: look the job up (404 when absent), decrypt the
stored passphrase (500 on failure), then unconditionally start
`BackupExecutor().execute_job(job)` in a fresh daemon thread.
`schedulerRunningJobs` is the scheduler's in-memory `running_jobs` set:
the handler runs in the separate web-server process and never reads it —
the parameter is unused, exactly as in the source. -/
def handleTriggerJob (schedulerRunningJobs : List Int) (rows : List BackupJobRow)
    (jobId : Int) (decryptOk : Bool) : TriggerResult :=
  match rows.find? (fun r => r.id == jobId) with
  | none => TriggerResult.notFound
  | some row =>
    if row.hasEncryptedPassphrase && !decryptOk then TriggerResult.decryptFailed
    else TriggerResult.started

/-! ## Archive naming and the prune glob (`_execute_borg_create`,
`_execute_borg_prune`) -/

/-- Archive name used by `_execute_borg_create`:
`f"{job['name']}_{started_at.strftime('%Y%m%d%H%MZ')}"`. -/
def archiveName (name ts : String) : String := name ++ "_" ++ ts

/-- The `--glob-archives` argument of `_execute_borg_prune`:
`f"{job['name']}_*"`. -/
def pruneGlobArg (name : String) : String := name ++ "_*"

/-- Shell-style glob matching as borg's `--glob-archives` applies it
(`*` matches any run of characters, `?` any single character, everything
else literally). -/
def globMatchL : List Char → List Char → Bool
  | [], s => s.isEmpty
  | c :: ps, s =>
    if c == '*' then (s.tails).any (fun t => globMatchL ps t)
    else
      match s with
      | [] => false
      | d :: s2 => (c == '?' || c == d) && globMatchL ps s2

/-- Glob matching on strings. -/
def globMatch (pat s : String) : Bool := globMatchL pat.data s.data

/-- The archives a prune run for the given glob makes candidates for
deletion, out of the archives present in the repository. -/
def pruneCandidates (glob : String) (archives : List String) : List String :=
  archives.filter (fun a => globMatch glob a)

/-- A job name is plain when it contains no glob metacharacters. -/
def plainName (s : String) : Bool :=
  s.data.all (fun c => !(c == '*' || c == '?'))

/-! ## Secret-at-rest encryption (`init_gpg.py`) -/

/-- The repeated-passphrase pad `passphrase_bytes * n` (Python list
repetition). -/
def repeatKey (p : List Nat) (n : Nat) : List Nat := (List.replicate n p).flatten

/-- Key wrapping in `init_gpg_key`: XOR the Fernet key with the passphrase
repeated `len(key) // len(passphrase) + 1` times (`zip` truncates to the
shorter list, i.e. to the key). -/
def wrapKey (key p : List Nat) : List Nat :=
  List.zipWith Nat.xor key (repeatKey p (key.length / p.length + 1))

/-- Key unwrapping in `get_encryption_key`: XOR the stored bytes with the
passphrase repeated `len(encrypted_key) // len(passphrase) + 1` times. -/
def unwrapKey (e p : List Nat) : List Nat :=
  List.zipWith Nat.xor e (repeatKey p (e.length / p.length + 1))

/-- Modelled from the spec: the Fernet symmetric cipher from the external
`cryptography` library (out of scope in §1, "at-rest encryption of stored
configuration"), used as a black box satisfying its documented contract
that decrypting with the encrypting key returns the original plaintext. -/
structure FernetModel where
  enc : List Nat → String → String
  dec : List Nat → String → Option String
  dec_enc : ∀ k s, dec k (enc k s) = some s

/-- `get_encryption_key`: `None` when the key file is absent, otherwise the
XOR-unwrapped file contents. -/
def getEncryptionKey (keyFile : Option (List Nat)) (passphrase : List Nat) :
    Option (List Nat) :=
  keyFile.map (fun e => unwrapKey e passphrase)

/-- `encrypt_data`: `None` when no key resolves, otherwise the Fernet
encryption of the data under the unwrapped key. -/
def encryptData (F : FernetModel) (keyFile : Option (List Nat))
    (passphrase : List Nat) (data : String) : Option String :=
  (getEncryptionKey keyFile passphrase).map (fun k => F.enc k data)

/-- `decrypt_data`: `None` when no key resolves or Fernet rejects the
token, otherwise the decrypted plaintext. -/
def decryptData (F : FernetModel) (keyFile : Option (List Nat))
    (passphrase : List Nat) (token : String) : Option String :=
  match getEncryptionKey keyFile passphrase with
  | none => none
  | some k => F.dec k token

/-! ## Concrete jobs and environments used to exercise the model -/

/-- A minimal valid job configuration: no hooks, no db, no s3. -/
def jobBasic : JobDict :=
  [("id", PyVal.pyInt 1), ("name", PyVal.pyStr "alpha"),
   ("compression", PyVal.pyStr "lz4"),
   ("source_directories", PyVal.pyList [PyVal.pyStr "/data"]),
   ("keep_daily", PyVal.pyInt 7), ("keep_monthly", PyVal.pyInt 6),
   ("keep_yearly", PyVal.pyInt 1),
   ("repository_passphrase", PyVal.pyStr "pw")]

/-- `jobBasic` with a database sub-configuration. -/
def jobDb : JobDict :=
  jobBasic ++ [("db_config", PyVal.pyDict [("type", PyVal.pyStr "postgres")])]

/-- `jobBasic` with a pre-command hook. -/
def jobPre : JobDict := jobBasic ++ [("pre_command", PyVal.pyStr "false")]

/-- A job with an unsupported compression mode (everything else valid). -/
def jobBadCompression : JobDict :=
  [("id", PyVal.pyInt 2), ("name", PyVal.pyStr "beta"),
   ("compression", PyVal.pyStr "gzip"),
   ("source_directories", PyVal.pyList [PyVal.pyStr "/data"]),
   ("keep_daily", PyVal.pyInt 7), ("keep_monthly", PyVal.pyInt 6),
   ("keep_yearly", PyVal.pyInt 1),
   ("repository_passphrase", PyVal.pyStr "pw")]

/-- An environment in which every external call succeeds. -/
def envAllOk : RunEnv where
  preOutcome := CmdOutcome.exited 0
  repoExists := true
  initExit := 0
  createOutcome := { exitCode := 0, duration := 3, maxMemoryMB := 120 }
  pruneOutcome := { exitCode := 0, duration := 1, maxMemoryMB := 50 }
  compactOutcome := { exitCode := 0, duration := 1, maxMemoryMB := 40 }
  dumpResult := Except.ok ["/tmp/alpha_db.dump"]
  dumpDuration := 2
  dbArchiveOutcome := { exitCode := 0, duration := 2, maxMemoryMB := 80 }
  dbPruneOutcome := { exitCode := 0, duration := 1, maxMemoryMB := 30 }
  dbCompactOutcome := { exitCode := 0, duration := 1, maxMemoryMB := 25 }
  s3Ok := true
  postOutcome := CmdOutcome.exited 0
  finishedAt := 1000

/-- `envAllOk`, except the db-namespace prune exits non-zero. -/
def envDbPruneFail : RunEnv :=
  { envAllOk with dbPruneOutcome := { exitCode := 1, duration := 0, maxMemoryMB := 0 } }

/-- `envAllOk`, except the db archive creation exits non-zero. -/
def envDbArchFail : RunEnv :=
  { envAllOk with dbArchiveOutcome := { exitCode := 2, duration := 0, maxMemoryMB := 0 } }

/-- `envAllOk`, except the pre-command hook hits its 5-minute timeout. -/
def envPreTimeout : RunEnv := { envAllOk with preOutcome := CmdOutcome.timedOut }

/-- `envAllOk`, except `borg create` exits non-zero. -/
def envCreateFail : RunEnv :=
  { envAllOk with createOutcome := { exitCode := 2, duration := 0, maxMemoryMB := 0 } }

/-! ## Helper lemmas -/

/-- Updating the row just inserted at the end of the table. -/
theorem set_length_append {α : Type} (l : List α) (a b : α) :
    (l ++ [a]).set l.length b = l ++ [b] := by
  induction l with
  | nil => rfl
  | cons x xs ih => simpa [List.set] using ih

/-- `execute_job` when the body raises: the inserted row is updated to the
failed record and the exception propagates. -/
theorem executeJob_eq_failed (job : JobDict) (envp : Option String) (env : RunEnv)
    (t : Nat) (store : List RunRecord) (idv nv : PyVal) (msg : String)
    (hid : dictGet job "id" = some idv) (hname : dictGet job "name" = some nv)
    (hval : validateJobConfig job envp = Except.ok ())
    (hbody : runJobBody job env = Except.error msg) :
    executeJob job envp env t store =
      (store ++ [failedRecord idv t env.finishedAt msg], Except.error msg) := by
  simp [executeJob, hid, hname, hval, hbody, set_length_append]

/-- `execute_job` when the body succeeds: the inserted row is updated to
the completed record. -/
theorem executeJob_eq_completed (job : JobDict) (envp : Option String) (env : RunEnv)
    (t : Nat) (store : List RunRecord) (idv nv : PyVal) (m : Metrics)
    (hid : dictGet job "id" = some idv) (hname : dictGet job "name" = some nv)
    (hval : validateJobConfig job envp = Except.ok ())
    (hbody : runJobBody job env = Except.ok m) :
    executeJob job envp env t store =
      (store ++ [completedRecord idv t env.finishedAt m], Except.ok ()) := by
  simp [executeJob, hid, hname, hval, hbody, set_length_append]

/-! ## Claim theorems -/

/-- C1: the claim says the manual trigger consults and joins the scheduler's
in-memory running set before starting the job.  The code does not: the
handler starts `execute_job` in a fresh thread unconditionally (the web
server is a separate process with no access to that set), so triggering a
job whose id is in the running set still starts a second concurrent run —
for every contents of the running set the trigger result is `started`. -/
theorem C1_trigger_ignores_running_set :
    handleTriggerJob [1] [{ id := 1, hasEncryptedPassphrase := true }] 1 true
        = TriggerResult.started ∧
    ∀ runningJobs : List Int,
      handleTriggerJob runningJobs [{ id := 1, hasEncryptedPassphrase := true }] 1 true
        = TriggerResult.started :=
  ⟨rfl, fun _ => rfl⟩

/-- C2 counterexample: with a db config, a non-zero exit of the db-namespace
prune is not fatal — the run still completes, with the minimal metric
values `(0, 1)` recorded for the db prune stage. -/
theorem C2_counterexample_db_prune_not_fatal :
    envDbPruneFail.dbPruneOutcome.exitCode = 1 ∧
    (executeJob jobDb none envDbPruneFail 0 []).2 = Except.ok () ∧
    ∃ r, (executeJob jobDb none envDbPruneFail 0 []).1 = [r] ∧
      r.status = RunStatus.completed ∧
      r.dbPruneDuration = some 0 ∧ r.dbPruneMaxMemory = some 1 := by
  exact ⟨rfl, rfl, ⟨_, rfl, rfl, rfl, rfl⟩⟩

/-- C2 amended: only the db archive creation is fatal for the run; a
non-zero exit of the db-namespace prune or compact is logged and replaced
by the minimal metric values `(0, 1)`, and the run continues. -/
theorem C2_amended_db_substage_fatality :
    (∀ o : TimedOutcome, o.exitCode ≠ 0 → pruneDbArchivesTimed o = (0, 1)) ∧
    (∀ o : TimedOutcome, o.exitCode ≠ 0 → executeDbCompactTimed o = (0, 1)) ∧
    (∀ env : RunEnv, ∀ fs : List String, env.dumpResult = Except.ok fs → fs ≠ [] →
      env.dbArchiveOutcome.exitCode ≠ 0 →
      (executeDbBackup env).1 = Except.error "Database archive creation failed") := by
  refine ⟨?_, ?_, ?_⟩
  · intro o h; simp [pruneDbArchivesTimed, h]
  · intro o h; simp [executeDbCompactTimed, h]
  · intro env fs hd hne harch
    cases fs with
    | nil => exact absurd rfl hne
    | cons a l => simp [executeDbBackup, hd, harch]

/-- C2 amended, witness: the sub-stage fatality facts evaluated at concrete
failing outcomes. -/
theorem C2_amended_witness :
    pruneDbArchivesTimed { exitCode := 1, duration := 5, maxMemoryMB := 9 } = (0, 1) ∧
    executeDbCompactTimed { exitCode := 1, duration := 5, maxMemoryMB := 9 } = (0, 1) ∧
    (executeDbBackup envDbArchFail).1 = Except.error "Database archive creation failed" := by
  refine ⟨?_, ?_, ?_⟩
  · exact C2_amended_db_substage_fatality.1 _ (by decide)
  · exact C2_amended_db_substage_fatality.2.1 _ (by decide)
  · exact C2_amended_db_substage_fatality.2.2 envDbArchFail ["/tmp/alpha_db.dump"]
      rfl (by decide) (by decide)

/-- C3 counterexample: a pre-command hook that hits the 5-minute timeout is
not merely logged — the raised exception fails the whole run. -/
theorem C3_counterexample_hook_timeout_fatal :
    (executeJob jobPre none envPreTimeout 0 []).2
        = Except.error "Command execution timed out" ∧
    ∃ r, (executeJob jobPre none envPreTimeout 0 []).1 = [r] ∧
      r.status = RunStatus.failed ∧
      r.errorMessage = some "Command execution timed out" := by
  exact ⟨rfl, ⟨_, rfl, rfl, rfl⟩⟩

/-- C3 amended: a hook's non-zero exit code is best-effort (logged only,
never an exception), but a hook timeout raises `Command execution timed
out`, which is fatal for the run. -/
theorem C3_amended_hook_failure_semantics :
    (∀ c : Int, executeCommand (CmdOutcome.exited c) = Except.ok ()) ∧
    executeCommand CmdOutcome.timedOut = Except.error "Command execution timed out" :=
  ⟨fun _ => rfl, rfl⟩

/-- C5: any fatal stage error raised after the run record was created
updates that record to `failed` with the captured message (and NULL
metrics, in particular NULL prune/compact metrics) before the exception is
re-raised to the caller. -/
theorem C5_fatal_error_marks_record_failed
    (job : JobDict) (envp : Option String) (env : RunEnv) (t : Nat)
    (store : List RunRecord) (idv nv : PyVal) (msg : String)
    (hid : dictGet job "id" = some idv) (hname : dictGet job "name" = some nv)
    (hval : validateJobConfig job envp = Except.ok ())
    (hbody : runJobBody job env = Except.error msg) :
    (executeJob job envp env t store).2 = Except.error msg ∧
    ∃ r, (executeJob job envp env t store).1 = store ++ [r] ∧
      r.status = RunStatus.failed ∧
      r.errorMessage = some msg ∧
      r.pruneDuration = none ∧ r.pruneMaxMemory = none ∧
      r.compactDuration = none ∧ r.compactMaxMemory = none := by
  rw [executeJob_eq_failed job envp env t store idv nv msg hid hname hval hbody]
  exact ⟨rfl, ⟨failedRecord idv t env.finishedAt msg, rfl, rfl, rfl, rfl, rfl, rfl, rfl⟩⟩

/-- C5 witness: a concrete run whose `borg create` exits non-zero — the
run record ends `failed` with the create error and NULL prune/compact
metrics. -/
theorem C5_witness :
    dictGet jobBasic "id" = some (PyVal.pyInt 1) ∧
    dictGet jobBasic "name" = some (PyVal.pyStr "alpha") ∧
    validateJobConfig jobBasic none = Except.ok () ∧
    runJobBody jobBasic envCreateFail = Except.error "Borg create failed" ∧
    ((executeJob jobBasic none envCreateFail 0 []).2
        = Except.error "Borg create failed" ∧
     ∃ r, (executeJob jobBasic none envCreateFail 0 []).1 = [] ++ [r] ∧
       r.status = RunStatus.failed ∧
       r.errorMessage = some "Borg create failed" ∧
       r.pruneDuration = none ∧ r.pruneMaxMemory = none ∧
       r.compactDuration = none ∧ r.compactMaxMemory = none) :=
  ⟨rfl, rfl, rfl, rfl,
   C5_fatal_error_marks_record_failed jobBasic none envCreateFail 0 []
     (PyVal.pyInt 1) (PyVal.pyStr "alpha") "Borg create failed" rfl rfl rfl rfl⟩

/-- C6: a job whose configuration fails pre-flight validation makes
`execute_job` raise before any run record is created — the run-record
store is returned unchanged. -/
theorem C6_validation_failure_leaves_store_unchanged
    (job : JobDict) (envp : Option String) (env : RunEnv) (t : Nat)
    (store : List RunRecord) (msg : String)
    (hval : validateJobConfig job envp = Except.error msg) :
    (executeJob job envp env t store).1 = store ∧
    ∃ m, (executeJob job envp env t store).2 = Except.error m := by
  rcases hid : dictGet job "id" with _ | idv
  · simp [executeJob, hid]
  · rcases hname : dictGet job "name" with _ | nv
    · simp [executeJob, hid, hname]
    · simp [executeJob, hid, hname, hval]

/-- C6 witness: an unsupported compression mode fails validation and
leaves the (empty) store unchanged. -/
theorem C6_witness :
    (∃ m, validateJobConfig jobBadCompression none = Except.error m) ∧
    (executeJob jobBadCompression none envAllOk 0 []).1 = [] ∧
    ∃ m, (executeJob jobBadCompression none envAllOk 0 []).2 = Except.error m := by
  refine ⟨⟨_, rfl⟩, ?_⟩
  exact C6_validation_failure_leaves_store_unchanged jobBadCompression none envAllOk
    0 [] "Job validation failed:\n  - Invalid compression type: gzip" rfl

/-- C7: whenever the database dump produced a non-empty list of temporary
dump files, removal is attempted for exactly those files after the stage,
on the success path and on the raise path of the `try` alike. -/
theorem C7_dump_files_removed_on_every_path (env : RunEnv) (fs : List String)
    (hd : env.dumpResult = Except.ok fs) (hne : fs ≠ []) :
    (executeDbBackup env).2 = fs := by
  cases fs with
  | nil => exact absurd rfl hne
  | cons a l => simp [executeDbBackup, hd]

/-- C7 witness: evaluated on the raise path (db archive creation fails)
with a concrete non-empty dump-file list. -/
theorem C7_witness :
    envDbArchFail.dumpResult = Except.ok ["/tmp/alpha_db.dump"] ∧
    ["/tmp/alpha_db.dump"] ≠ ([] : List String) ∧
    (executeDbBackup envDbArchFail).2 = ["/tmp/alpha_db.dump"] :=
  ⟨rfl, by decide,
   C7_dump_files_removed_on_every_path envDbArchFail ["/tmp/alpha_db.dump"] rfl (by decide)⟩

/-- C4: the due-check returns `true` exactly when (a) at most 61 seconds
have passed since the last scheduled fire time `prev` on or before `T`,
(b) no run record of the job has `started_at` in `[prev, T)`, and (c) the
job is not in the in-memory running set. -/
theorem C4_due_check_iff (running : List Int) (jobId : Int) (prev T : Nat)
    (logs : List LogRow) (hPT : prev ≤ T) :
    shouldRunJob running jobId prev T logs = true ↔
      (T - prev ≤ 61 ∧
       (∀ r ∈ logs, ¬(r.jobId = jobId ∧ prev ≤ r.startedAt ∧ r.startedAt < T)) ∧
       running.contains jobId = false) := by
  have key : countRunsBetween logs jobId prev T = 0 ↔
      (∀ r ∈ logs, ¬(r.jobId = jobId ∧ prev ≤ r.startedAt ∧ r.startedAt < T)) := by
    unfold countRunsBetween
    rw [List.length_eq_zero, List.filter_eq_nil_iff]
    constructor
    · intro h r hr hcon
      have hb := h r hr
      simp only [Bool.and_eq_true, beq_iff_eq, decide_eq_true_eq] at hb
      exact hb ⟨⟨hcon.1, hcon.2.1⟩, hcon.2.2⟩
    · intro h r hr
      simp only [Bool.and_eq_true, beq_iff_eq, decide_eq_true_eq]
      intro hcon
      exact h r hr ⟨hcon.1.1, hcon.1.2, hcon.2⟩
  unfold shouldRunJob
  by_cases hcb : running.contains jobId = true
  · rw [if_pos hcb]
    simp only [Bool.false_eq_true, false_iff, not_and]
    intro _ _
    rw [hcb]
    simp
  · have hcf : running.contains jobId = false := by
      simpa using hcb
    rw [if_neg hcb]
    by_cases hg : T - prev > 61
    · rw [if_pos hg]
      have h61 : ¬ (T - prev ≤ 61) := by omega
      simp [h61]
    · rw [if_neg hg]
      have h61 : T - prev ≤ 61 := by omega
      simp only [beq_iff_eq, key, h61, hcf, true_and, and_true]

/-- C4 witness: the due-check evaluated at a concrete in-window instant
with empty history and empty running set. -/
theorem C4_witness :
    (100 : Nat) ≤ 130 ∧
    (shouldRunJob [] 1 100 130 [] = true ↔
      (130 - 100 ≤ 61 ∧
       (∀ r ∈ ([] : List LogRow), ¬(r.jobId = 1 ∧ 100 ≤ r.startedAt ∧ r.startedAt < 130)) ∧
       ([] : List Int).contains 1 = false)) :=
  ⟨by decide, C4_due_check_iff [] 1 100 130 [] (by decide)⟩

/-- Inversion of a successful `execute_job` run: the id/name lookups, the
validation and the pipeline body must all have succeeded. -/
theorem executeJob_ok_inv (job : JobDict) (envp : Option String) (env : RunEnv)
    (t : Nat) (store : List RunRecord)
    (h : (executeJob job envp env t store).2 = Except.ok ()) :
    ∃ idv nv m, dictGet job "id" = some idv ∧ dictGet job "name" = some nv ∧
      validateJobConfig job envp = Except.ok () ∧ runJobBody job env = Except.ok m := by
  rcases hid : dictGet job "id" with _ | idv
  · simp [executeJob, hid] at h
  · rcases hname : dictGet job "name" with _ | nv
    · simp [executeJob, hid, hname] at h
    · rcases hval : validateJobConfig job envp with e | u
      · simp [executeJob, hid, hname, hval] at h
      · rcases hbody : runJobBody job env with msg | m
        · simp [executeJob, hid, hname, hval, hbody] at h
        · exact ⟨idv, nv, m, rfl, rfl, rfl, rfl⟩

/-- A successful pipeline body carries exactly the db-metrics produced by
the (possibly skipped) database-backup stage. -/
theorem runJobBody_ok_db (job : JobDict) (env : RunEnv) (m : Metrics)
    (h : runJobBody job env = Except.ok m) :
    (if truthy (pyGet job "db_config") then (executeDbBackup env).1
     else Except.ok dbMetricsNone) = Except.ok m.db := by
  unfold runJobBody at h
  cases hpre : (if truthy (pyGet job "pre_command") then executeCommand env.preOutcome
      else Except.ok ()) with
  | error e => rw [hpre] at h; simp at h
  | ok upre =>
  rw [hpre] at h
  cases hrepo : (if !env.repoExists then
        match dictGet job "repository_passphrase" with
        | none => Except.error "KeyError: repository_passphrase"
        | some pv => initRepository (truthy pv) env.initExit
      else Except.ok ()) with
  | error e => rw [hrepo] at h; simp at h
  | ok urepo =>
  rw [hrepo] at h
  cases hpp : dictGet job "repository_passphrase" with
  | none => rw [hpp] at h; simp at h
  | some pv =>
  rw [hpp] at h
  cases hcr : executeBorgCreate env.createOutcome with
  | error e => rw [hcr] at h; simp at h
  | ok cr =>
  rw [hcr] at h
  cases hpr : executeBorgPrune env.pruneOutcome with
  | error e => rw [hpr] at h; simp at h
  | ok pr =>
  rw [hpr] at h
  cases hco : executeBorgCompact env.compactOutcome with
  | error e => rw [hco] at h; simp at h
  | ok co =>
  rw [hco] at h
  cases hdbx : (if truthy (pyGet job "db_config") then (executeDbBackup env).1
      else Except.ok dbMetricsNone) with
  | error e => rw [hdbx] at h; simp at h
  | ok dbm =>
  rw [hdbx] at h
  cases hs3 : (if truthy (pyGet job "s3_config") then
        (if env.s3Ok then Except.ok () else Except.error "S3 sync failed")
      else Except.ok ()) with
  | error e => rw [hs3] at h; simp at h
  | ok us3 =>
  rw [hs3] at h
  cases hpost : (if truthy (pyGet job "post_command") then executeCommand env.postOutcome
      else Except.ok ()) with
  | error e => rw [hpost] at h; simp at h
  | ok upost =>
  rw [hpost] at h
  simp only [Except.ok.injEq] at h
  rw [← h]

/-- When the dump produced a non-empty file list and `_execute_db_backup`
returned metrics, every one of the eight db metrics is present. -/
theorem executeDbBackup_ok_all_some (env : RunEnv) (fs : List String) (dbm : DbMetrics)
    (hdump : env.dumpResult = Except.ok fs) (hne : fs ≠ [])
    (h : (executeDbBackup env).1 = Except.ok dbm) :
    dbm.dumpDuration.isSome = true ∧ dbm.dumpMaxMemory.isSome = true ∧
    dbm.archiveDuration.isSome = true ∧ dbm.archiveMaxMemory.isSome = true ∧
    dbm.pruneDuration.isSome = true ∧ dbm.pruneMaxMemory.isSome = true ∧
    dbm.compactDuration.isSome = true ∧ dbm.compactMaxMemory.isSome = true := by
  cases fs with
  | nil => exact absurd rfl hne
  | cons a l =>
    unfold executeDbBackup at h
    rw [hdump] at h
    simp only [List.isEmpty_cons, Bool.false_eq_true, if_false] at h
    split at h
    · simp only [Except.ok.injEq] at h
      subst h
      exact ⟨rfl, rfl, rfl, rfl, rfl, rfl, rfl, rfl⟩
    · simp at h

/-- C8: a successful run with no database config leaves all eight db-stage
metrics NULL; a successful run whose database config is present and whose
db sub-stages executed (the dump produced a non-empty file list) records a
non-NULL value for every one of the eight db-stage metrics. -/
theorem C8_db_metrics_null_iff_skipped (job : JobDict) (envp : Option String)
    (env : RunEnv) (t : Nat) (store : List RunRecord)
    (hok : (executeJob job envp env t store).2 = Except.ok ()) :
    ∃ r, (executeJob job envp env t store).1 = store ++ [r] ∧
      r.status = RunStatus.completed ∧
      (truthy (pyGet job "db_config") = false →
        r.dbDumpDuration = none ∧ r.dbDumpMaxMemory = none ∧
        r.dbArchiveDuration = none ∧ r.dbArchiveMaxMemory = none ∧
        r.dbPruneDuration = none ∧ r.dbPruneMaxMemory = none ∧
        r.dbCompactDuration = none ∧ r.dbCompactMaxMemory = none) ∧
      (∀ fs, truthy (pyGet job "db_config") = true →
        env.dumpResult = Except.ok fs → fs ≠ [] →
        r.dbDumpDuration.isSome = true ∧ r.dbDumpMaxMemory.isSome = true ∧
        r.dbArchiveDuration.isSome = true ∧ r.dbArchiveMaxMemory.isSome = true ∧
        r.dbPruneDuration.isSome = true ∧ r.dbPruneMaxMemory.isSome = true ∧
        r.dbCompactDuration.isSome = true ∧ r.dbCompactMaxMemory.isSome = true) := by
  obtain ⟨idv, nv, m, hid, hname, hval, hbody⟩ :=
    executeJob_ok_inv job envp env t store hok
  have hdb := runJobBody_ok_db job env m hbody
  rw [executeJob_eq_completed job envp env t store idv nv m hid hname hval hbody]
  refine ⟨completedRecord idv t env.finishedAt m, rfl, rfl, ?_, ?_⟩
  · intro hfalse
    rw [hfalse] at hdb
    simp only [Bool.false_eq_true, if_false, Except.ok.injEq] at hdb
    refine ⟨?_, ?_, ?_, ?_, ?_, ?_, ?_, ?_⟩ <;>
      simp [completedRecord, updateLogEntry, mkRunningRecord, ← hdb, dbMetricsNone]
  · intro fs htrue hdump hne
    rw [htrue] at hdb
    simp only [if_true] at hdb
    exact executeDbBackup_ok_all_some env fs m.db hdump hne hdb

/-- C8 witness: the characterization applied to a concrete successful run
with a database config and a non-empty dump list. -/
theorem C8_witness :
    (executeJob jobDb none envAllOk 0 []).2 = Except.ok () ∧
    ∃ r, (executeJob jobDb none envAllOk 0 []).1 = [] ++ [r] ∧
      r.status = RunStatus.completed ∧
      (truthy (pyGet jobDb "db_config") = false →
        r.dbDumpDuration = none ∧ r.dbDumpMaxMemory = none ∧
        r.dbArchiveDuration = none ∧ r.dbArchiveMaxMemory = none ∧
        r.dbPruneDuration = none ∧ r.dbPruneMaxMemory = none ∧
        r.dbCompactDuration = none ∧ r.dbCompactMaxMemory = none) ∧
      (∀ fs, truthy (pyGet jobDb "db_config") = true →
        envAllOk.dumpResult = Except.ok fs → fs ≠ [] →
        r.dbDumpDuration.isSome = true ∧ r.dbDumpMaxMemory.isSome = true ∧
        r.dbArchiveDuration.isSome = true ∧ r.dbArchiveMaxMemory.isSome = true ∧
        r.dbPruneDuration.isSome = true ∧ r.dbPruneMaxMemory.isSome = true ∧
        r.dbCompactDuration.isSome = true ∧ r.dbCompactMaxMemory.isSome = true) :=
  ⟨rfl, C8_db_metrics_null_iff_skipped jobDb none envAllOk 0 [] rfl⟩

/-- A single `*` matches every string. -/
theorem globMatchL_star (s : List Char) : globMatchL [Char.ofNat 42] s = true := by
  have : (Char.ofNat 42 == '*') = true := by decide
  simp only [globMatchL, this, if_true, List.any_eq_true]
  exact ⟨[], (List.mem_tails [] s).mpr List.nil_suffix, by simp [globMatchL]⟩

/-- A metacharacter-free pattern followed by a single trailing `*` matches
exactly the strings having the pattern as a prefix. -/
theorem globMatchL_lit_star (p : List Char) (s : List Char)
    (hp : ∀ c ∈ p, c ≠ '*' ∧ c ≠ '?') :
    (globMatchL (p ++ ['*']) s = true) ↔ p <+: s := by
  induction p generalizing s with
  | nil =>
    simp only [List.nil_append]
    constructor
    · intro _; exact List.nil_prefix
    · intro _
      have h42 : ('*' : Char) = Char.ofNat 42 := by decide
      rw [h42]
      exact globMatchL_star s
  | cons c p ih =>
    have hc := hp c (List.mem_cons_self c p)
    have hcstar : (c == '*') = false := by
      simp [hc.1]
    have hcq : (c == '?') = false := by
      simp [hc.2]
    cases s with
    | nil =>
      simp only [List.cons_append, globMatchL, hcstar, Bool.false_eq_true, if_false]
      constructor
      · intro h; exact absurd h (by simp)
      · intro h
        have := List.IsPrefix.length_le h
        simp at this
    | cons d s2 =>
      simp only [List.cons_append, globMatchL, hcstar, Bool.false_eq_true, if_false,
        hcq, Bool.false_or, Bool.and_eq_true, beq_iff_eq]
      rw [List.append_eq, ih s2 (fun x hx => hp x (List.mem_cons_of_mem c hx)),
        List.cons_prefix_cons]

/-- Matching job `a`'s prune glob is exactly having `a` plus underscore as
a prefix, for any plain job name `a`. -/
theorem pruneGlob_match_iff (a : String) (ha : plainName a = true) (s : String) :
    globMatch (pruneGlobArg a) s = true ↔ (a.data ++ ['_']) <+: s.data := by
  unfold globMatch pruneGlobArg
  have hdata : (a ++ "_*").data = (a.data ++ ['_']) ++ ['*'] := by
    rw [String.data_append]
    simp
  rw [hdata]
  apply globMatchL_lit_star
  intro c hc
  rcases List.mem_append.mp hc with h1 | h2
  · have hall := ha
    unfold plainName at hall
    rw [List.all_eq_true] at hall
    have := hall c h1
    simp only [Bool.not_eq_true', Bool.or_eq_false_iff] at this
    exact ⟨by simpa using this.1, by simpa using this.2⟩
  · have : c = '_' := by simpa using h2
    subst this
    exact ⟨by decide, by decide⟩

/-- C9 counterexample: the prune glob of job `foo` matches an archive
created by the distinct job `foo_bar`, so with both jobs' archives in one
repository namespace the prune run for `foo` makes `foo_bar`'s archive a
deletion candidate. -/
theorem C9_counterexample_cross_job_glob_match :
    ("foo" : String) ≠ "foo_bar" ∧
    globMatch (pruneGlobArg "foo") (archiveName "foo_bar" "202601010200Z") = true ∧
    archiveName "foo_bar" "202601010200Z" ∈
      pruneCandidates (pruneGlobArg "foo") [archiveName "foo_bar" "202601010200Z"] := by
  refine ⟨by decide, by decide, ?_⟩
  simp only [pruneCandidates, archiveName, pruneGlobArg]
  decide

/-- C9 amended: the prune stage restricts deletion candidates to archives
matching the glob `<name>_*`; this never matches another job's archive
unless that archive's name extends `<name>` after an underscore (i.e. has
`<name>_` as a prefix — e.g. jobs `foo` and `foo_bar`), and it always
matches the job's own archives. -/
theorem C9_amended_prune_glob_isolation (a b ts : String)
    (ha : plainName a = true)
    (hfree : ¬ (a.data ++ ['_']) <+: (archiveName b ts).data) :
    globMatch (pruneGlobArg a) (archiveName b ts) = false ∧
    ∀ ts2 : String, globMatch (pruneGlobArg a) (archiveName a ts2) = true := by
  constructor
  · exact Bool.eq_false_iff.mpr
      (fun htrue => hfree ((pruneGlob_match_iff a ha (archiveName b ts)).mp htrue))
  · intro ts2
    rw [pruneGlob_match_iff a ha (archiveName a ts2)]
    have hdata : (archiveName a ts2).data = (a.data ++ ['_']) ++ ts2.data := by
      unfold archiveName
      rw [String.data_append, String.data_append]
    rw [hdata]
    exact List.prefix_append _ _

/-- C9 amended, witness: distinct jobs `foo` and `bar` — no cross match —
and `foo`'s own archives always match its glob. -/
theorem C9_amended_witness :
    plainName "foo" = true ∧
    ¬ ("foo".data ++ ['_']) <+: (archiveName "bar" "202601010200Z").data ∧
    (globMatch (pruneGlobArg "foo") (archiveName "bar" "202601010200Z") = false ∧
     ∀ ts2 : String, globMatch (pruneGlobArg "foo") (archiveName "foo" ts2) = true) :=
  ⟨by decide, by decide,
   C9_amended_prune_glob_isolation "foo" "bar" "202601010200Z" (by decide) (by decide)⟩

/-- Length of the repeated-passphrase pad. -/
theorem repeatKey_length (p : List Nat) (n : Nat) :
    (repeatKey p n).length = n * p.length := by
  unfold repeatKey
  induction n with
  | zero => simp
  | succ k ih =>
    simp only [List.replicate_succ, List.flatten_cons, List.length_append, ih]
    ring

/-- The pad built for a key of length `k` covers the whole key: Python's
`len(key) // len(passphrase) + 1` repetitions always reach past `k`. -/
theorem le_repeatKey_length (k : Nat) (p : List Nat) (hp : p ≠ []) :
    k ≤ (repeatKey p (k / p.length + 1)).length := by
  rw [repeatKey_length]
  have hpos : 0 < p.length := List.length_pos.mpr hp
  have hdm := Nat.div_add_mod k p.length
  have hlt : k % p.length < p.length := Nat.mod_lt _ hpos
  have hexp : (k / p.length + 1) * p.length = p.length * (k / p.length) + p.length := by
    ring
  omega

/-- XOR-ing twice with the same (long enough) pad is the identity. -/
theorem zipWith_xor_cancel (a : List Nat) :
    ∀ b : List Nat, a.length ≤ b.length →
      List.zipWith Nat.xor (List.zipWith Nat.xor a b) b = a := by
  induction a with
  | nil => intro b _; simp
  | cons x xs ih =>
    intro b hb
    cases b with
    | nil => simp at hb
    | cons y ys =>
      simp only [List.zipWith_cons_cons, List.cons.injEq]
      exact ⟨Nat.xor_cancel_right y x, ih ys (by simpa using hb)⟩

/-- The XOR unwrap in `get_encryption_key` recovers exactly the key that
`init_gpg_key` wrapped, for any non-empty passphrase. -/
theorem unwrap_wrap (key p : List Nat) (hp : p ≠ []) :
    unwrapKey (wrapKey key p) p = key := by
  have hlen : (wrapKey key p).length = key.length := by
    unfold wrapKey
    rw [List.length_zipWith]
    exact Nat.min_eq_left (le_repeatKey_length key.length p hp)
  unfold unwrapKey
  rw [hlen]
  unfold wrapKey
  exact zipWith_xor_cancel key _ (le_repeatKey_length key.length p hp)

/-- C10: with the same key file (holding the wrapped Fernet key) and the
same passphrase environment on both calls, `decrypt_data ∘ encrypt_data`
is the identity: the XOR unwrap recovers the identical Fernet key both
times, and Fernet's round-trip contract does the rest. -/
theorem C10_encrypt_decrypt_roundtrip (F : FernetModel) (key p : List Nat)
    (s : String) (hp : p ≠ []) :
    ∃ c, encryptData F (some (wrapKey key p)) p s = some c ∧
         decryptData F (some (wrapKey key p)) p c = some s := by
  refine ⟨F.enc key s, ?_, ?_⟩
  · simp [encryptData, getEncryptionKey, unwrap_wrap key p hp]
  · simp [decryptData, getEncryptionKey, unwrap_wrap key p hp, F.dec_enc]

/-- A trivial cipher satisfying the Fernet contract, used to instantiate
the round-trip theorem on concrete data. -/
def fernetTag : FernetModel where
  enc := fun _ s => s
  dec := fun _ c => some c
  dec_enc := fun _ _ => rfl

/-- C10 witness: the round trip evaluated at a concrete key, passphrase
and secret. -/
theorem C10_witness :
    ([7, 11] : List Nat) ≠ [] ∧
    ∃ c, encryptData fernetTag (some (wrapKey [1, 2, 3] [7, 11])) [7, 11] "secret" = some c ∧
         decryptData fernetTag (some (wrapKey [1, 2, 3] [7, 11])) [7, 11] c = some "secret" :=
  ⟨by decide, C10_encrypt_decrypt_roundtrip fernetTag [1, 2, 3] [7, 11] "secret" (by decide)⟩
